import Mathlib

/-!
Verification of the connection-lifecycle and subscription-registry logic of
`src/mqtt_node_network/node.py` (class `MQTTNode` and its helper functions),
as a shallow embedding.

Modelling conventions:
* Python strings are Lean `String`s (both are sequences of unicode code points,
  so Python `len`/slicing agree with `String.length`/`List.take` on `data`).
* The external paho client is an environment: its result codes, connection
  status and reconnect outcomes are oracle arguments, and calls into it are
  recorded as `Event`s in a trace.
* A paho `SubscribeOptions` object is modelled by its `qos` field with
  structural equality; a registry entry is the normalized pair
  `(topic_filter, SubscribeOptions)` exactly as built on lines 177-178/205-206
  of the source.
* The four prometheus counters are `Nat` fields of `NodeState`.
* Unbounded Python loops (`while not connected` in `ensure_connection`, the
  `for` loop of `restore_subscriptions` over the live list) take a fuel
  argument and return `none` when the fuel runs out with the loop condition
  still true, so termination is proved, never assumed.
-/

namespace MQTT

/-- Characters removed by Python `str.strip()` (ASCII whitespace). -/
def isPySpace (c : Char) : Bool :=
  c == ' ' || c == '\t' || c == '\n' || c == '\x0b' || c == '\x0c' || c == '\r'

/-- Python `str.strip()`: remove leading and trailing whitespace. -/
def pyStrip (l : List Char) : List Char :=
  (l.dropWhile isPySpace).rdropWhile isPySpace

/-- `str.strip()` lifted to `String`. -/
def stripStr (s : String) : String :=
  String.mk (pyStrip s.data)

/-- Source lines 26-31:
`data = data.strip(); return data[:max_length] + "..." if len(data) > max_length else data`.
The `max_length` parameter defaults to 75 in the source and every caller uses
that default, so the default value is supplied explicitly at every use site
below. (The callers of interest always pass a `str`, so the `str(data)`
coercion on line 29 is the identity.) -/
def shorten_data (data : String) (max_length : Nat) : String :=
  if (stripStr data).length > max_length
  then String.mk ((stripStr data).data.take max_length) ++ "..."
  else stripStr data

/-- A 76-character input to `shorten_data` whose last character is a space. -/
def a76 : String := String.mk (List.replicate 75 'a' ++ [' '])

/-- An 80-character input that `str.strip()` leaves unchanged. -/
def b80 : String := String.mk (List.replicate 80 'b')

/-- A paho `mqtt.SubscribeOptions(qos)` value (source lines 178/206), reduced
to the `qos` argument the source constructs it from; equality of two options
values is structural equality of their qos. -/
structure SubscribeOptions where
  qos : Nat
deriving DecidableEq, Repr

/-- A registry entry: the normalized tuple `(topic, SubscribeOptions(qos))`
that `subscribe`/`add_subscription_topic` build and store in
`self.subscriptions`. -/
abbrev Entry := String × SubscribeOptions

/-- The `topic` argument of `subscribe`/`add_subscription_topic`: either a
bare string or an already-normalized tuple (the `isinstance(topic, str)`
dichotomy of source lines 177-180 and 205-206). -/
inductive Topic where
  | str : String → Topic
  | tup : Entry → Topic
deriving DecidableEq, Repr

/-- The normalization performed on source lines 177-178 and 205-206:
a bare string is paired with `SubscribeOptions(qos)`, a tuple is kept. -/
def normalizeTopic (t : Topic) (qos : Nat) : Entry :=
  match t with
  | .str s => (s, ⟨qos⟩)
  | .tup e => e

/-- Source lines 204-208 (`MQTTNode.add_subscription_topic`): normalize, then
`if topic not in self.subscriptions: self.subscriptions.append(topic)`. -/
def add_subscription_topic (regs : List Entry) (topic : Topic) (qos : Nat) : List Entry :=
  let e := normalizeTopic topic qos
  if e ∈ regs then regs else regs ++ [e]

/-- A paho `SubscribeOptions` object under the identity equality Python
actually applies to it: paho defines no `__eq__` on `SubscribeOptions`
(only `__init__`, `__setattr__`, `pack`, `unpack`, `json`, `__repr__`,
`__str__`), so `==` falls back to object identity. `alloc` is the object
identity: each construction of `SubscribeOptions(qos)` on line 206 gets a
fresh allocation number, and two objects are the same object exactly when
their `alloc` values coincide. -/
structure OptObj where
  qos : Nat
  alloc : Nat
deriving DecidableEq, Repr

/-- A registry entry under identity equality of the options object. -/
abbrev EntryObj := String × OptObj

/-- Source lines 204-208 (`MQTTNode.add_subscription_topic`) on a bare
string topic, under identity equality of options objects: line 206 builds
the tuple `(s, SubscribeOptions(q))` with a freshly allocated options
object `n`, line 207 tests tuple membership (string by value, options
object by identity), line 208 appends if absent. -/
def add_subscription_topic_obj (regs : List EntryObj) (s : String) (q n : Nat) :
    List EntryObj :=
  let e : EntryObj := (s, ⟨q, n⟩)
  if e ∈ regs then regs else regs ++ [e]

/-- A sequence of bare-string `add_subscription_topic(topic, qos)` calls
under identity equality, threading the allocation counter: the i-th call
constructs the i-th fresh options object. -/
def addManyObj (regs : List EntryObj) (n : Nat) : List (String × Nat) → List EntryObj
  | [] => regs
  | c :: cs => addManyObj (add_subscription_topic_obj regs c.1 c.2 n) (n+1) cs

/-- Mutable state of an `MQTTNode`: the subscription registry, the four
prometheus counters, and the two broker-config fields the connection logic
reads (`self.timeout`, `self.reconnect_attempts`). -/
structure NodeState where
  subscriptions : List Entry
  msgsReceived : Nat
  bytesReceived : Nat
  msgsSent : Nat
  bytesSent : Nat
  timeout : Nat
  reconnectAttempts : Nat
deriving DecidableEq, Repr

/-- Observable calls into the external collaborators (paho client, logger,
`time.sleep`), recorded in order. -/
inductive Event where
  | clientSubscribe : Entry → Event
  | clientUnsubscribe : String → Event
  | clientReconnect : Event
  | clientPublish : String → List Nat → Nat → Bool → Event
  | sleepSecs : Nat → Event
  | logSubscribeFailed : Entry → Event
  | logSubscribed : Entry → Event
  | logConnectRefused : Event
  | logRetry : Nat → Nat → Event
  | logConnected : Event
  | logReceived : String → String → Nat → Event
  | logPublished : Nat → Event
deriving DecidableEq, Repr

/-- Source lines 169-192 (`MQTTNode.subscribe`): normalize the topic, call
`self.client.subscribe`, log failure if the broker returned result code 4
(error) and success otherwise, then unconditionally call
`add_subscription_topic` with the normalized tuple. `resultCode` is the
result code the external client returns for this call. -/
def subscribe (st : NodeState) (topic : Topic) (qos : Nat) (resultCode : Nat) :
    NodeState × List Event :=
  let e := normalizeTopic topic qos
  let logEv := if resultCode = 4 then Event.logSubscribeFailed e else Event.logSubscribed e
  ({ st with subscriptions := add_subscription_topic st.subscriptions (Topic.tup e) qos },
   [Event.clientSubscribe e, logEv])

/-- Source lines 194-202 (`MQTTNode.unsubscribe`): `return
self.client.unsubscribe(topic)` — the local registry is not touched (the
`TODO remove from self.subscriptions` on line 201 is unimplemented). -/
def unsubscribe (st : NodeState) (topic : String) : NodeState × List Event :=
  (st, [Event.clientUnsubscribe topic])

/-- The `for topic in self.subscriptions: self.subscribe(topic)` loop of
source lines 210-212, with the Python live-list iteration made explicit: an
index `i` advances over the current list; `fuel` bounds the number of
iterations and exhausting it with the loop condition still true yields
`none`. `codes i` is the broker result code of the i-th subscribe call. -/
def restoreAux (codes : Nat → Nat) : NodeState → Nat → Nat → Option (NodeState × List Event)
  | st, i, 0 => if i < st.subscriptions.length then none else some (st, [])
  | st, i, fuel+1 =>
    if h : i < st.subscriptions.length then
      let step := subscribe st (Topic.tup st.subscriptions[i]) 0 (codes i)
      match restoreAux codes step.1 (i+1) fuel with
      | none => none
      | some (stF, evs) => some (stF, step.2 ++ evs)
    else some (st, [])

/-- Source lines 210-212 (`MQTTNode.restore_subscriptions`), run with fuel
equal to the registry length at entry. -/
def restore_subscriptions (st : NodeState) (codes : Nat → Nat) :
    Option (NodeState × List Event) :=
  restoreAux codes st 0 st.subscriptions.length

/-- Source lines 246-248 (`MQTTNode.on_connect`): log the successful
connection, then call `restore_subscriptions` (once). -/
def on_connect (st : NodeState) (codes : Nat → Nat) : Option (NodeState × List Event) :=
  match restore_subscriptions st codes with
  | none => none
  | some (st2, evs) => some (st2, Event.logConnected :: evs)

/-- The trace that replaying the registry suffix starting at index `i`
produces: one client subscribe call plus one log line per entry, in order. -/
def replayFrom (codes : Nat → Nat) : List Entry → Nat → List Event
  | [], _ => []
  | e :: rest, i =>
      Event.clientSubscribe e ::
        (if codes i = 4 then Event.logSubscribeFailed e else Event.logSubscribed e) ::
        replayFrom codes rest (i+1)

/-- Extracts the entry of a client subscribe call, if the event is one. -/
def subCallOf : Event → Option Entry
  | .clientSubscribe e => some e
  | _ => none

/-- One iteration of the `ensure_connection` retry loop (source lines
218-227): a `self.client.reconnect()` call, the error log if it raised
`ConnectionRefusedError` (caught), the retry-info log (the attempt counter
starts at 1 and is incremented before logging, so iteration `j` logs
`j + 2`), and `time.sleep(self.timeout)`. -/
def attemptBlock (refused : Bool) (attemptNo timeoutS : Nat) : List Event :=
  Event.clientReconnect ::
    ((if refused then [Event.logConnectRefused] else []) ++
      [Event.logRetry attemptNo timeoutS, Event.sleepSecs timeoutS])

/-- The `while self.client.is_connected() is False` loop of source lines
218-227. `conn k` is what the k-th `is_connected()` call returns (call 0 is
the guard on line 215), `ref j` is whether the j-th `reconnect()` raises
`ConnectionRefusedError`; `fuel` bounds the iterations, `none` meaning the
loop was still running when fuel ran out. -/
def ensureLoop (conn ref : Nat → Bool) (timeoutS : Nat) : Nat → Nat → Nat → Option (List Event)
  | _, _, 0 => none
  | k, j, fuel+1 =>
    if conn k then some []
    else
      match ensureLoop conn ref timeoutS (k+1) (j+1) fuel with
      | none => none
      | some evs => some (attemptBlock (ref j) (j+2) timeoutS ++ evs)

/-- Source lines 214-227 (`MQTTNode.ensure_connection`): return immediately
if `is_connected()` is true, else run the retry loop. No node state is
mutated (`reconnects` is a local variable). -/
def ensure_connection (st : NodeState) (conn ref : Nat → Bool) (fuel : Nat) :
    Option (NodeState × List Event) :=
  if conn 0 then some (st, [])
  else
    match ensureLoop conn ref st.timeout 1 0 fuel with
    | none => none
    | some evs => some (st, evs)

/-- The trace of `r` consecutive retry-loop iterations starting at iteration
index `j`. -/
def retryTrace (ref : Nat → Bool) (timeoutS : Nat) : Nat → Nat → List Event
  | _, 0 => []
  | j, r+1 => attemptBlock (ref j) (j+2) timeoutS ++ retryTrace ref timeoutS (j+1) r

/-- Source lines 229-231 (`MQTTNode.publish`): `self.ensure_connection()`,
then `return self.client.publish(topic, payload, qos, retain)`. -/
def publish (st : NodeState) (conn ref : Nat → Bool) (fuel : Nat)
    (topic : String) (payload : List Nat) (qos : Nat) (retain : Bool) :
    Option (NodeState × List Event) :=
  match ensure_connection st conn ref fuel with
  | none => none
  | some (st2, evs) => some (st2, evs ++ [Event.clientPublish topic payload qos retain])

/-- Source lines 270-274 (`MQTTNode.on_publish`): increment the sent-message
counter by one and log the message id. -/
def on_publish (st : NodeState) (mid : Nat) : NodeState × List Event :=
  ({ st with msgsSent := st.msgsSent + 1 }, [Event.logPublished mid])

/-- An incoming paho message: topic, raw payload bytes, qos. -/
structure MQTTMessage where
  topic : String
  payload : List Nat
  qos : Nat
deriving DecidableEq, Repr

/-- Source lines 258-268 (`MQTTNode.on_message`): increment the
received-message counter by 1 and the received-byte counter by
`len(message.payload)`, then log the topic together with
`shorten_data(message.payload.decode())`. `decode` is the external
`bytes.decode` (UTF-8), passed as an oracle. -/
def on_message (decode : List Nat → String) (st : NodeState) (m : MQTTMessage) :
    NodeState × List Event :=
  ({ st with
      msgsReceived := st.msgsReceived + 1,
      bytesReceived := st.bytesReceived + m.payload.length },
   [Event.logReceived m.topic (shorten_data (decode m.payload) 75) m.qos])

/-- Recognizes `clientReconnect` events. -/
def isReconnectEv : Event → Bool
  | .clientReconnect => true
  | _ => false

/-- Recognizes `sleepSecs` events. -/
def isSleepEv : Event → Bool
  | .sleepSecs _ => true
  | _ => false

/-- Recognizes `logConnectRefused` events. -/
def isRefusedLogEv : Event → Bool
  | .logConnectRefused => true
  | _ => false

/-- Recognizes `clientPublish` events. -/
def isPublishEv : Event → Bool
  | .clientPublish _ _ _ _ => true
  | _ => false

/-- A Python exception escaping `MQTTNode.__init__`. -/
inductive PyError where
  | attributeError : String → PyError
deriving DecidableEq, Repr

/-- The instance attributes assigned by the opening lines of
`MQTTNode.__init__`; `none` means the attribute has not been assigned yet
(reading it raises `AttributeError`). The `name` attribute stores the
(optional) `name` argument, hence the nested `Option`. -/
structure Attrs where
  nameAttr : Option (Option String) := none
  node_id : Option String := none
  node_type : Option String := none
  client_id : Option String := none
deriving DecidableEq, Repr

/-- Source lines 285-287 (`MQTTNode._get_id`): read `self.node_type`
(raising `AttributeError` if it is not assigned yet), draw the next value
from the class-level `itertools.count()` counter `_ids` (source line 85,
process-wide, starting at 0), and format `"{node_type}_{seq}"`. -/
def pyGetId (self : Attrs) (ids : Nat) : Except PyError (String × Nat) :=
  match self.node_type with
  | none => Except.error (PyError.attributeError "node_type")
  | some t => Except.ok (t ++ "_" ++ toString ids, ids + 1)

/-- Source lines 119-122 of `MQTTNode.__init__`, with the assignments in
source order: `self.name = name`; `self.node_id = node_id or
self._get_id()` (the `or` short-circuits on a non-empty `node_id`);
`self.node_type = node_type or self.__class__.__name__` (class name
`"MQTTNode"`; the argument is modelled as present or `None`);
`self.client_id = node_id`. `ids` is the process-wide `_ids` counter,
threaded through; the remaining assignments of `__init__` (broker fields,
paho client setup) do not touch these attributes or the counter. -/
def mqttnode_init (nm : Option String) (node_id : String) (node_type : Option String)
    (ids : Nat) : Except PyError (Attrs × Nat) := do
  let self : Attrs := {}
  let self := { self with nameAttr := some nm }
  let r ← if node_id ≠ "" then pure (node_id, ids) else pyGetId self ids
  let self := { self with node_id := some r.1 }
  let self := { self with node_type := some (node_type.getD "MQTTNode") }
  let self := { self with client_id := some node_id }
  pure (self, r.2)

/-- A concrete node state used by witnesses. -/
def demoSt : NodeState :=
  { subscriptions := [], msgsReceived := 0, bytesReceived := 0,
    msgsSent := 0, bytesSent := 0, timeout := 1, reconnectAttempts := 3 }

/-- A concrete node state with one registered subscription, used by
witnesses. -/
def demoSt2 : NodeState :=
  { subscriptions := [(("x" : String), ⟨0⟩)], msgsReceived := 0, bytesReceived := 0,
    msgsSent := 0, bytesSent := 0, timeout := 1, reconnectAttempts := 3 }

lemma dropWhile_head_false (p : Char → Bool) (l : List Char) :
    ∀ {a : Char} {t : List Char}, l.dropWhile p = a :: t → p a = false := by
  induction l with
  | nil => intro a t h; simp [List.dropWhile] at h
  | cons b l ih =>
    intro a t h
    rw [List.dropWhile_cons] at h
    by_cases hb : p b
    · exact ih (by simpa [hb] using h)
    · simp [hb] at h
      rw [← h.1]
      simpa using hb

lemma pyStrip_idem (l : List Char) : pyStrip (pyStrip l) = pyStrip l := by
  unfold pyStrip
  have key : List.dropWhile isPySpace ((l.dropWhile isPySpace).rdropWhile isPySpace)
      = (l.dropWhile isPySpace).rdropWhile isPySpace := by
    cases hr : (l.dropWhile isPySpace).rdropWhile isPySpace with
    | nil => simp
    | cons a r =>
      obtain ⟨t, ht⟩ := List.rdropWhile_prefix isPySpace (l.dropWhile isPySpace)
      rw [hr] at ht
      have ha : isPySpace a = false := dropWhile_head_false isPySpace l ht.symm
      simp [List.dropWhile_cons, ha]
  rw [key, List.rdropWhile_idempotent]

lemma pyStrip_length_le (l : List Char) : (pyStrip l).length ≤ l.length := by
  have hp := List.rdropWhile_prefix isPySpace (l.dropWhile isPySpace)
  have hs : l.dropWhile isPySpace <:+ l := List.dropWhile_suffix isPySpace
  exact le_trans hp.length_le hs.length_le

lemma stripStr_length_le (s : String) : (stripStr s).length ≤ s.length :=
  pyStrip_length_le s.data

lemma stripStr_idem (s : String) : stripStr (stripStr s) = stripStr s :=
  congrArg String.mk (pyStrip_idem s.data)

lemma string_mk_append_length (l : List Char) (t : String) :
    (String.mk l ++ t).length = l.length + t.length := by
  show (String.mk l ++ t).data.length = _
  have : (String.mk l ++ t).data = l ++ t.data := rfl
  rw [this, List.length_append]
  rfl

lemma shorten_data_of_strip_le (s : String) (h : (stripStr s).length ≤ 75) :
    shorten_data s 75 = stripStr s := by
  unfold shorten_data
  simp [Nat.not_lt.mpr h]

lemma shorten_data_of_strip_gt (s : String) (h : 75 < (stripStr s).length) :
    shorten_data s 75 = String.mk ((stripStr s).data.take 75) ++ "..."
      ∧ (shorten_data s 75).length = 78 := by
  have he : shorten_data s 75 = String.mk ((stripStr s).data.take 75) ++ "..." := by
    unfold shorten_data
    rw [if_pos h]
  refine ⟨he, ?_⟩
  rw [he, string_mk_append_length, List.length_take]
  have hlen : (stripStr s).data.length = (stripStr s).length := rfl
  rw [hlen, Nat.min_eq_left (le_of_lt h)]
  rfl

lemma shorten_data_length_le (s : String) : (shorten_data s 75).length ≤ 78 := by
  by_cases h : 75 < (stripStr s).length
  · rw [(shorten_data_of_strip_gt s h).2]
  · have h2 := Nat.not_lt.mp h
    rw [shorten_data_of_strip_le s h2]
    omega

lemma shorten_data_eq_ite (s : String) :
    shorten_data s 75 = if 75 < (stripStr s).length
      then String.mk ((stripStr s).data.take 75) ++ "..." else stripStr s := by
  by_cases h : 75 < (stripStr s).length
  · rw [if_pos h]; exact (shorten_data_of_strip_gt s h).1
  · rw [if_neg h]; exact shorten_data_of_strip_le s (Nat.not_lt.mp h)

/-- C9 counterexample: `a76` is a 76-character string (longer than 75), but
because `shorten_data` strips whitespace before measuring, the result is the
75 stripped characters, not the first 75 characters of the input followed by
an ellipsis, and its length is 75, not 78. -/
theorem shorten_data_76_counterexample :
    a76.length = 76 ∧ (shorten_data a76 75).length = 75 ∧
      shorten_data a76 75 ≠ String.mk (a76.data.take 75) ++ "..." := by
  refine ⟨by decide, by decide, by decide⟩

/-- C9 (amended): `shorten_data` is idempotent on inputs of at most 75
characters; an input whose *stripped* form is longer than 75 characters is
truncated to the first 75 characters of the stripped form plus a 3-character
ellipsis (total 78); and an input whose stripped form is at most 75 characters
long is returned stripped, unmodified otherwise (so a longer-than-75 input
whose stripped form fits is not padded to 78). -/
theorem shorten_data_amended (s : String) :
    (s.length ≤ 75 → shorten_data (shorten_data s 75) 75 = shorten_data s 75) ∧
    (shorten_data s 75).length ≤ 78 ∧
    (75 < (stripStr s).length →
      shorten_data s 75 = String.mk ((stripStr s).data.take 75) ++ "..." ∧
        (shorten_data s 75).length = 78) ∧
    ((stripStr s).length ≤ 75 → shorten_data s 75 = stripStr s) := by
  refine ⟨?_, shorten_data_length_le s, shorten_data_of_strip_gt s, shorten_data_of_strip_le s⟩
  intro h
  have hd : (stripStr s).length ≤ 75 := le_trans (stripStr_length_le s) h
  rw [shorten_data_of_strip_le s hd]
  have hd2 : (stripStr (stripStr s)).length ≤ 75 := by
    rw [stripStr_idem]; exact hd
  rw [shorten_data_of_strip_le (stripStr s) hd2, stripStr_idem]

/-- C9 witness: the amended theorem applied at concrete inputs, discharging
each hypothesis: idempotence at a short input, and the 78-character
truncation at an 80-character input. -/
theorem shorten_data_amended_witness :
    shorten_data (shorten_data "ab" 75) 75 = shorten_data "ab" 75 ∧
    (shorten_data b80 75).length = 78 ∧
    shorten_data " ab " 75 = stripStr " ab " :=
  ⟨(shorten_data_amended "ab").1 (by decide),
   ((shorten_data_amended b80).2.2.1 (by decide)).2,
   (shorten_data_amended " ab ").2.2.2 (by decide)⟩

lemma subscribe_state_of_mem {st : NodeState} {e : Entry} (q c : Nat)
    (he : e ∈ st.subscriptions) : (subscribe st (Topic.tup e) q c).1 = st := by
  simp [subscribe, add_subscription_topic, normalizeTopic, he]

lemma subscribe_events (st : NodeState) (e : Entry) (q c : Nat) :
    (subscribe st (Topic.tup e) q c).2 =
      [Event.clientSubscribe e,
       if c = 4 then Event.logSubscribeFailed e else Event.logSubscribed e] := rfl

lemma restoreAux_spec (codes : Nat → Nat) :
    ∀ fuel i st, st.subscriptions.length ≤ i + fuel →
      restoreAux codes st i fuel
        = some (st, replayFrom codes (st.subscriptions.drop i) i) := by
  intro fuel
  induction fuel with
  | zero =>
    intro i st h
    have hni : ¬ i < st.subscriptions.length := by omega
    rw [List.drop_eq_nil_of_le (by omega)]
    simp [restoreAux, hni, replayFrom]
  | succ fuel ih =>
    intro i st h
    by_cases hi : i < st.subscriptions.length
    · have he : st.subscriptions[i] ∈ st.subscriptions := List.getElem_mem hi
      have hst := subscribe_state_of_mem 0 (codes i) he
      have hrec := ih (i+1)
        ((subscribe st (Topic.tup st.subscriptions[i]) 0 (codes i)).1)
        (by rw [hst]; omega)
      rw [hst] at hrec
      rw [List.drop_eq_getElem_cons hi, replayFrom]
      simp only [restoreAux, dif_pos hi, hst, hrec, subscribe_events]
      rfl
    · have hle : st.subscriptions.length ≤ i := by omega
      rw [List.drop_eq_nil_of_le hle]
      simp [restoreAux, hi, replayFrom]

lemma restore_spec (st : NodeState) (codes : Nat → Nat) :
    restore_subscriptions st codes = some (st, replayFrom codes st.subscriptions 0) := by
  have h := restoreAux_spec codes st.subscriptions.length 0 st (by omega)
  simpa [restore_subscriptions] using h

lemma on_connect_spec (st : NodeState) (codes : Nat → Nat) :
    on_connect st codes
      = some (st, Event.logConnected :: replayFrom codes st.subscriptions 0) := by
  simp [on_connect, restore_spec]

lemma replayFrom_filterMap (codes : Nat → Nat) :
    ∀ (regs : List Entry) (i : Nat),
      (replayFrom codes regs i).filterMap subCallOf = regs := by
  intro regs
  induction regs with
  | nil => intro i; simp [replayFrom]
  | cons e rest ih =>
    intro i
    by_cases hc : codes i = 4 <;> simp [replayFrom, hc, subCallOf, ih (i+1)]

lemma mem_of_subCall {evs : List Event} {e : Entry}
    (h : e ∈ evs.filterMap subCallOf) : Event.clientSubscribe e ∈ evs := by
  rcases List.mem_filterMap.mp h with ⟨ev, hev, hsome⟩
  cases ev <;> simp_all [subCallOf]

/-- C1: on every successful (re)connection, `on_connect` calls
`restore_subscriptions` once, and the resulting trace contains exactly one
client subscribe call for every entry of the registry at that moment, in
registry order (`filterMap` projects the subscribe calls in trace order);
the registry itself is unchanged by the replay. -/
theorem on_connect_replays_registry_once (st : NodeState) (codes : Nat → Nat) :
    ∃ evs, on_connect st codes = some (st, evs) ∧
      evs.filterMap subCallOf = st.subscriptions :=
  ⟨_, on_connect_spec st codes, by
    simp [subCallOf, replayFrom_filterMap]⟩

/-- C2 counterexample: the filter string `"a"` is already in the registry
(paired with qos 0), yet `add_subscription_topic` with qos 1 is not a no-op:
the registry is keyed by the whole `(filter, SubscribeOptions)` tuple, so a
second entry with the same filter is appended. -/
theorem add_subscription_topic_dup_filter_not_noop :
    add_subscription_topic [(("a" : String), SubscribeOptions.mk 0)] (Topic.str "a") 1
        = [(("a" : String), SubscribeOptions.mk 0), (("a" : String), SubscribeOptions.mk 1)] ∧
      add_subscription_topic [(("a" : String), SubscribeOptions.mk 0)] (Topic.str "a") 1
        ≠ [(("a" : String), SubscribeOptions.mk 0)] := by
  refine ⟨by decide, by decide⟩

lemma addManyObj_length :
    ∀ (calls : List (String × Nat)) (regs : List EntryObj) (n : Nat),
      (∀ e ∈ regs, e.2.alloc < n) →
      (addManyObj regs n calls).length = regs.length + calls.length := by
  intro calls
  induction calls with
  | nil => intro regs n _; simp [addManyObj]
  | cons c cs ih =>
    intro regs n hlt
    have hfresh : ((c.1, (⟨c.2, n⟩ : OptObj)) : EntryObj) ∉ regs := by
      intro hmem
      exact absurd rfl (Nat.ne_of_lt (hlt _ hmem))
    have hadd : add_subscription_topic_obj regs c.1 c.2 n
        = regs ++ [(c.1, ⟨c.2, n⟩)] := by
      simp [add_subscription_topic_obj, hfresh]
    have hlt2 : ∀ e ∈ regs ++ [((c.1, (⟨c.2, n⟩ : OptObj)) : EntryObj)], e.2.alloc < n + 1 := by
      intro e he
      rcases List.mem_append.mp he with hin | hin
      · exact Nat.lt_succ_of_lt (hlt e hin)
      · rw [List.mem_singleton.mp hin]
        exact Nat.lt_succ_self n
    show (addManyObj (add_subscription_topic_obj regs c.1 c.2 n) (n+1) cs).length = _
    rw [hadd, ih _ (n+1) hlt2]
    simp
    omega

/-- C2 (amended): `add_subscription_topic` gives the registry no set
semantics for bare-string adds: each call constructs a fresh paho options
object, the membership test of line 207 compares options objects by
identity (paho defines no value equality on them), so a freshly built entry
never matches a stored one and every bare-string call appends — even an
exact `(filter, qos)` duplicate. Hence a sequence of N bare-string calls
starting from an empty registry always yields exactly N entries — in
particular, for calls with distinct filters the registry size equals the
number of distinct filters — and two identical `("a", qos 0)` calls yield
two entries. The membership test is a no-op guard only when the very entry
object already stored is re-added, which is what keeps the reconnect replay
from growing the registry. -/
theorem add_subscription_topic_no_set_semantics (regs : List EntryObj) (s : String)
    (q n : Nat) (calls : List (String × Nat)) :
    ((∀ e ∈ regs, e.2.alloc ≠ n) →
      add_subscription_topic_obj regs s q n = regs ++ [(s, ⟨q, n⟩)]) ∧
    ((s, (⟨q, n⟩ : OptObj)) ∈ regs → add_subscription_topic_obj regs s q n = regs) ∧
    (addManyObj [] 0 calls).length = calls.length ∧
    (addManyObj [] 0 [("a", 0), ("a", 0)]).length = 2 := by
  refine ⟨fun hfresh => ?_, fun h => by simp [add_subscription_topic_obj, h], ?_, by decide⟩
  · have hnotin : ((s, (⟨q, n⟩ : OptObj)) : EntryObj) ∉ regs := by
      intro hmem
      exact hfresh _ hmem rfl
    simp [add_subscription_topic_obj, hnotin]
  · have := addManyObj_length calls [] 0 (by intro e he; simp at he)
    simpa using this

/-- C2 witness: the amended theorem at concrete inputs, discharging each
hypothesis: a second `("a", qos 0)` add with a freshly allocated options
object appends a duplicate entry, while re-adding the very entry object
already stored is a no-op. -/
theorem add_subscription_topic_no_set_semantics_witness :
    add_subscription_topic_obj [(("a" : String), OptObj.mk 0 0)] "a" 0 1
        = [(("a" : String), OptObj.mk 0 0)] ++ [(("a" : String), OptObj.mk 0 1)] ∧
    add_subscription_topic_obj [(("a" : String), OptObj.mk 0 0)] "a" 0 0
        = [(("a" : String), OptObj.mk 0 0)] :=
  ⟨(add_subscription_topic_no_set_semantics [(("a" : String), OptObj.mk 0 0)]
      "a" 0 1 []).1 (by decide),
   (add_subscription_topic_no_set_semantics [(("a" : String), OptObj.mk 0 0)]
      "a" 0 0 []).2.1 (by decide)⟩

/-- C6: `unsubscribe` only forwards to the transport — the node state
(including the subscription registry) is unchanged — and a subsequent
reconnect replay therefore still issues one subscribe call per registry
entry, including any entry whose topic was just unsubscribed. -/
theorem unsubscribe_leaves_registry (st : NodeState) (topic : String)
    (codes : Nat → Nat) :
    unsubscribe st topic = (st, [Event.clientUnsubscribe topic]) ∧
    ∃ evs, on_connect (unsubscribe st topic).1 codes = some (st, evs) ∧
      evs.filterMap subCallOf = st.subscriptions ∧
      ∀ e, e ∈ st.subscriptions → Event.clientSubscribe e ∈ evs := by
  refine ⟨rfl, _, on_connect_spec st codes, ?_, ?_⟩
  · simp [subCallOf, replayFrom_filterMap]
  · intro e he
    apply List.mem_cons_of_mem
    exact mem_of_subCall (by rw [replayFrom_filterMap]; exact he)

/-- C6 witness: the theorem at a concrete state whose registry holds an
entry for topic `"x"`; unsubscribing `"x"` forwards to the transport, and
the replay trace still subscribes `("x", qos 0)`. -/
theorem unsubscribe_leaves_registry_witness :
    unsubscribe demoSt2 "x" = (demoSt2, [Event.clientUnsubscribe "x"]) ∧
    ∃ evs, on_connect (unsubscribe demoSt2 "x").1 (fun _ => 0) = some (demoSt2, evs) ∧
      evs.filterMap subCallOf = demoSt2.subscriptions ∧
      ∀ e, e ∈ demoSt2.subscriptions → Event.clientSubscribe e ∈ evs :=
  unsubscribe_leaves_registry demoSt2 "x" (fun _ => 0)

/-- C10: `subscribe` on a bare topic with broker result code 4 (failure)
issues the client subscribe call, logs the failure, and still adds the
normalized entry to the registry, so the next reconnect replay re-issues a
subscribe for the broker-rejected topic. -/
theorem subscribe_failure_still_added_to_registry (st : NodeState) (t : String)
    (q : Nat) (codes : Nat → Nat) :
    (subscribe st (Topic.str t) q 4).2
        = [Event.clientSubscribe (t, ⟨q⟩), Event.logSubscribeFailed (t, ⟨q⟩)] ∧
    (t, (⟨q⟩ : SubscribeOptions)) ∈ (subscribe st (Topic.str t) q 4).1.subscriptions ∧
    ∃ evs, on_connect (subscribe st (Topic.str t) q 4).1 codes
        = some ((subscribe st (Topic.str t) q 4).1, evs) ∧
      Event.clientSubscribe (t, ⟨q⟩) ∈ evs := by
  have hmem : (t, (⟨q⟩ : SubscribeOptions))
      ∈ (subscribe st (Topic.str t) q 4).1.subscriptions := by
    simp only [subscribe, normalizeTopic, add_subscription_topic]
    by_cases h : ((t, (⟨q⟩ : SubscribeOptions)) : Entry) ∈ st.subscriptions
    · simp [h]
    · simp [h]
  refine ⟨rfl, hmem, _, on_connect_spec _ codes, ?_⟩
  apply List.mem_cons_of_mem
  exact mem_of_subCall (by rw [replayFrom_filterMap]; exact hmem)

lemma ensureLoop_eq_retryTrace (n : Nat) (ref : Nat → Bool) (timeoutS : Nat) :
    ∀ r k j, k + r = n + 1 →
      ensureLoop (fun i => decide (n < i)) ref timeoutS k j (r+1)
        = some (retryTrace ref timeoutS j r) := by
  intro r
  induction r with
  | zero =>
    intro k j hk
    have hnk : n < k := by omega
    simp [ensureLoop, retryTrace, hnk]
  | succ r ih =>
    intro k j hk
    have hnk : ¬ n < k := by omega
    have hrec := ih (k+1) (j+1) (by omega)
    have step : ensureLoop (fun i => decide (n < i)) ref timeoutS k j (r + 1 + 1)
        = if decide (n < k) then some []
          else
            match ensureLoop (fun i => decide (n < i)) ref timeoutS (k+1) (j+1) (r+1) with
            | none => none
            | some evs => some (attemptBlock (ref j) (j+2) timeoutS ++ evs) := rfl
    rw [step, hrec]
    simp [hnk, retryTrace]

lemma retryTrace_countP_reconnect (ref : Nat → Bool) (tS : Nat) :
    ∀ r j, (retryTrace ref tS j r).countP isReconnectEv = r := by
  intro r
  induction r with
  | zero => intro j; simp [retryTrace]
  | succ r ih =>
    intro j
    cases href : ref j <;>
      simp [retryTrace, attemptBlock, href, List.countP_append, List.countP_cons,
        ih (j+1), isReconnectEv]

lemma retryTrace_countP_sleep (ref : Nat → Bool) (tS : Nat) :
    ∀ r j, (retryTrace ref tS j r).countP isSleepEv = r := by
  intro r
  induction r with
  | zero => intro j; simp [retryTrace]
  | succ r ih =>
    intro j
    cases href : ref j <;>
      simp [retryTrace, attemptBlock, href, List.countP_append, List.countP_cons,
        ih (j+1), isSleepEv]

lemma retryTrace_countP_refused (ref : Nat → Bool) (tS : Nat) :
    ∀ r j, (retryTrace ref tS j r).countP isRefusedLogEv
      = (List.range r).countP (fun i => ref (j + i)) := by
  intro r
  induction r with
  | zero => intro j; simp [retryTrace]
  | succ r ih =>
    intro j
    have hfun : (fun i => ref (j + 1 + i)) = (fun i => ref (j + (i + 1))) := by
      funext i; congr 1; omega
    cases href : ref j <;>
      simp [retryTrace, attemptBlock, href, List.countP_append, List.countP_cons,
        ih (j+1), isRefusedLogEv, List.range_succ_eq_map, List.countP_map,
        Function.comp_def, hfun]

lemma ensureLoop_countP_publish (conn ref : Nat → Bool) (tS : Nat) :
    ∀ fuel k j evs, ensureLoop conn ref tS k j fuel = some evs →
      evs.countP isPublishEv = 0 := by
  intro fuel
  induction fuel with
  | zero => intro k j evs h; simp [ensureLoop] at h
  | succ fuel ih =>
    intro k j evs h
    by_cases hc : conn k = true
    · simp [ensureLoop, hc] at h
      subst h
      simp
    · have hc2 : conn k = false := by simpa using hc
      simp only [ensureLoop, hc2, Bool.false_eq_true, if_false] at h
      cases hm : ensureLoop conn ref tS (k+1) (j+1) fuel with
      | none => rw [hm] at h; simp at h
      | some evs2 =>
        rw [hm] at h
        simp only [Option.some.injEq] at h
        rw [← h, List.countP_append, ih (k+1) (j+1) evs2 hm]
        cases href : ref j <;> simp [attemptBlock, List.countP_cons, isPublishEv]

lemma ensure_connection_shape (st : NodeState) (conn ref : Nat → Bool) (fuel : Nat) :
    ensure_connection st conn ref fuel = none ∨
    ∃ evs, ensure_connection st conn ref fuel = some (st, evs) ∧
      evs.countP isPublishEv = 0 := by
  unfold ensure_connection
  by_cases hc : conn 0 = true
  · right; exact ⟨[], by simp [hc], by simp⟩
  · have hc2 : conn 0 = false := by simpa using hc
    simp only [hc2, Bool.false_eq_true, if_false]
    cases hm : ensureLoop conn ref st.timeout 1 0 fuel with
    | none => exact Or.inl rfl
    | some evs =>
      exact Or.inr ⟨evs, rfl, ensureLoop_countP_publish conn ref st.timeout fuel 1 0 evs hm⟩

/-- C3: entered while disconnected, `ensure_connection` loops attempting a
synchronous reconnect until `is_connected()` turns true: for an environment
in which the k-th status check succeeds only after `n` failed checks, the
loop makes exactly `n` reconnect attempts and exactly `n` sleeps of
`timeout` seconds (one after every attempt), a refused attempt adds a log
entry instead of propagating (one per refused attempt), and the whole run is
identical for every value of the configured `reconnect_attempts`, for every
`n` — the attempt count is unbounded and the configuration is never
consulted. -/
theorem ensure_connection_unbounded_retry (st : NodeState) (n a : Nat) (ref : Nat → Bool) :
    ensure_connection { st with reconnectAttempts := a } (fun i => decide (n < i)) ref (n+1)
        = some ({ st with reconnectAttempts := a }, retryTrace ref st.timeout 0 n) ∧
    (retryTrace ref st.timeout 0 n).countP isReconnectEv = n ∧
    (retryTrace ref st.timeout 0 n).countP isSleepEv = n ∧
    (retryTrace ref st.timeout 0 n).countP isRefusedLogEv
      = (List.range n).countP (fun j => ref j) := by
  refine ⟨?_, retryTrace_countP_reconnect ref st.timeout n 0,
    retryTrace_countP_sleep ref st.timeout n 0, by
      simpa using retryTrace_countP_refused ref st.timeout n 0⟩
  have h0 : ¬ n < 0 := by omega
  have hl := ensureLoop_eq_retryTrace n ref st.timeout n 1 0 (by omega)
  simp [ensure_connection, h0, hl]

/-- C4: if the transport reports connected, `ensure_connection` returns at
once with an empty trace — no reconnect attempt, no sleep, no log — and the
node state unchanged. -/
theorem ensure_connection_noop_when_connected (st : NodeState) (conn ref : Nat → Bool)
    (fuel : Nat) (h : conn 0 = true) :
    ensure_connection st conn ref fuel = some (st, []) := by
  simp [ensure_connection, h]

/-- C4 witness: the theorem at a concrete connected environment. -/
theorem ensure_connection_noop_witness :
    ensure_connection demoSt (fun _ => true) (fun _ => false) 0 = some (demoSt, []) :=
  ensure_connection_noop_when_connected demoSt (fun _ => true) (fun _ => false) 0 rfl

/-- C5: every `publish` call first runs `ensure_connection` and only then
issues the single transport publish (the trace is the connection trace —
which contains no publish call — followed by exactly one client publish);
the node state, in particular the sent-message counter, is unchanged at
publish call time. The counter is incremented, by exactly 1, only in the
`on_publish` acknowledgment callback, which touches nothing else. -/
theorem publish_connects_first_and_defers_counter (st : NodeState)
    (conn ref : Nat → Bool) (fuel : Nat) (topic : String) (payload : List Nat)
    (qos : Nat) (retain : Bool) (mid : Nat) :
    (∀ st2 evs, publish st conn ref fuel topic payload qos retain = some (st2, evs) →
      st2 = st ∧
      ∃ pre, ensure_connection st conn ref fuel = some (st, pre) ∧
        evs = pre ++ [Event.clientPublish topic payload qos retain] ∧
        pre.countP isPublishEv = 0) ∧
    (on_publish st mid).1.msgsSent = st.msgsSent + 1 ∧
    (on_publish st mid).1.msgsReceived = st.msgsReceived ∧
    (on_publish st mid).1.bytesReceived = st.bytesReceived ∧
    (on_publish st mid).1.subscriptions = st.subscriptions ∧
    (on_publish st mid).2 = [Event.logPublished mid] := by
  refine ⟨?_, rfl, rfl, rfl, rfl, rfl⟩
  intro st2 evs h
  rcases ensure_connection_shape st conn ref fuel with hnone | ⟨pre, hsome, hnp⟩
  · rw [publish, hnone] at h; simp at h
  · rw [publish, hsome] at h
    simp only [Option.some.injEq, Prod.mk.injEq] at h
    exact ⟨h.1.symm, pre, hsome, h.2.symm, hnp⟩

/-- C5 witness: the theorem applied to a concrete publish on an
already-connected environment: the trace is exactly one client publish
preceded by the empty connection trace. -/
theorem publish_defers_counter_witness :
    demoSt = demoSt ∧
    ∃ pre, ensure_connection demoSt (fun _ => true) (fun _ => false) 1 = some (demoSt, pre) ∧
      [Event.clientPublish "t" [1] 0 false] = pre ++ [Event.clientPublish "t" [1] 0 false] ∧
      pre.countP isPublishEv = 0 :=
  (publish_connects_first_and_defers_counter demoSt (fun _ => true) (fun _ => false) 1
    "t" [1] 0 false 0).1 demoSt [Event.clientPublish "t" [1] 0 false] rfl

/-- C7: the message-received handler increments the received-message counter
by exactly 1 and the received-byte counter by exactly the payload byte
length, leaves every other part of the state unchanged, and then logs a
preview of the decoded payload: the preview is at most 78 characters, namely
the first 75 characters of the stripped text plus a 3-character ellipsis
when the stripped text is longer than 75 characters, and the stripped text
itself otherwise. -/
theorem on_message_counts_and_preview (decode : List Nat → String) (st : NodeState)
    (m : MQTTMessage) :
    (on_message decode st m).1.msgsReceived = st.msgsReceived + 1 ∧
    (on_message decode st m).1.bytesReceived = st.bytesReceived + m.payload.length ∧
    (on_message decode st m).1.msgsSent = st.msgsSent ∧
    (on_message decode st m).1.bytesSent = st.bytesSent ∧
    (on_message decode st m).1.subscriptions = st.subscriptions ∧
    (on_message decode st m).2
      = [Event.logReceived m.topic (shorten_data (decode m.payload) 75) m.qos] ∧
    (shorten_data (decode m.payload) 75).length ≤ 78 ∧
    shorten_data (decode m.payload) 75
      = if 75 < (stripStr (decode m.payload)).length
        then String.mk ((stripStr (decode m.payload)).data.take 75) ++ "..."
        else stripStr (decode m.payload) :=
  ⟨rfl, rfl, rfl, rfl, rfl, rfl, shorten_data_length_le (decode m.payload),
   shorten_data_eq_ite (decode m.payload)⟩

/-- C8: constructing a node without an explicit `node_id` does not produce
`"{node_type}_{sequence}"` — it raises `AttributeError`, because line 120
calls `_get_id` (which reads `self.node_type`) before line 121 assigns
`self.node_type`. With an explicit non-empty id the id is used unchanged and
the process-wide counter is not consumed. -/
theorem mqttnode_init_id_bug (nm : Option String) (nt : Option String) (ids : Nat)
    (s : String) (hs : s ≠ "") :
    mqttnode_init nm "" nt ids = Except.error (PyError.attributeError "node_type") ∧
    mqttnode_init nm s nt ids
      = Except.ok ({ nameAttr := some nm, node_id := some s,
                     node_type := some (nt.getD "MQTTNode"), client_id := some s }, ids) := by
  constructor
  · simp [mqttnode_init, pyGetId]
  · simp only [mqttnode_init, hs, if_pos, ne_eq, not_false_eq_true, if_true]
    rfl

/-- C8 witness: the theorem at concrete arguments — the default construction
raises `AttributeError`, while an explicit id `"n1"` is stored unchanged with
the counter still at 0. -/
theorem mqttnode_init_id_bug_witness :
    mqttnode_init none "" none 0 = Except.error (PyError.attributeError "node_type") ∧
    mqttnode_init none "n1" none 0
      = Except.ok ({ nameAttr := some none, node_id := some "n1",
                     node_type := some "MQTTNode", client_id := some "n1" }, 0) :=
  mqttnode_init_id_bug none none 0 "n1" (by decide)

end MQTT
